import Mathlib

/-
Verification of the NightDriverRemote firmware (src/main.cpp) against its
specification.  The program is a button-driven ESP-NOW remote: a packed
6-byte wire message (size, command tag, 32-bit little-endian argument),
a command enumeration, and a controller that cycles an effect index and
sends SetEffect commands.  Machine integers are modelled as Nat with
explicit reductions modulo 2^8 / 2^32 where the C types truncate.
Serial logging and the OLED drawing primitives are not modelled beyond
what the claims need (a display-update counter and the pure progress-bar
arithmetic).
-/

/-- The effect catalog `EFFECT_NAMES` from main.cpp: a fixed, ordered list of
7 effect names; the list index is the wire value sent for SetEffect. -/
def EFFECT_NAMES : List String :=
  ["Solid White", "Solid Red", "Solid Amber", "Fire Effect",
   "Rainbow Fill", "Color Meteors", "Off"]

/-- The broadcast receiver MAC `RECEIVER_MAC` from main.cpp (all-ones =
broadcast to every listening receiver). -/
def RECEIVER_MAC : List Nat := [255, 255, 255, 255, 255, 255]

/-- The command enumeration `ESPNowCommand` from main.cpp. -/
inductive ESPNowCommand where
  | NextEffect
  | PrevEffect
  | SetEffect
  | SetBrightness
  | INVALID
deriving DecidableEq, Repr

/-- The wire value of each command, exactly as assigned by the C++ enum
(`NextEffect = 1`, the next two follow by succession, `INVALID = 255`). -/
def ESPNowCommand.toWire : ESPNowCommand → Nat
  | .NextEffect => 1
  | .PrevEffect => 2
  | .SetEffect => 3
  | .SetBrightness => 4
  | .INVALID => 255

/-- The packed `Message` struct from main.cpp: `uint8_t size`,
`ESPNowCommand command` (one byte), `uint32_t arg1`, with no padding
(`__attribute__((packed))`), so `sizeof(Message) = 6`. -/
structure Message where
  size : Nat
  command : Nat
  arg1 : Nat
deriving DecidableEq, Repr

/-- The `Message` constructor from main.cpp: stores `size = sizeof(Message) = 6`,
the command's wire value, and the argument truncated to `uint32_t`.  The
constructor is total: main.cpp has no assertion or error branch in it. -/
def Message.make (cmd : ESPNowCommand) (argument : Nat) : Message :=
  { size := 6, command := cmd.toWire, arg1 := argument % 4294967296 }

/-- Models `Message::data()` from main.cpp: the raw bytes of the packed struct, in
declared field order, with the `uint32_t` argument in little-endian byte
order (the ESP32 is little-endian and the struct is packed). -/
def Message.data (m : Message) : List Nat :=
  [m.size % 256, m.command % 256,
   m.arg1 % 256, m.arg1 / 256 % 256, m.arg1 / 65536 % 256, m.arg1 / 16777216 % 256]

/-- Models `Message::byte_size()` from main.cpp: `sizeof(Message)`, which is 6 for
the packed struct. -/
def Message.byte_size (_ : Message) : Nat := 6

/-- Little-endian decoding of a 4-byte sequence, as a conformant receiver
would reassemble the `arg1` field. -/
def decodeLE4 (bs : List Nat) : Nat :=
  bs.getD 0 0 + bs.getD 1 0 * 256 + bs.getD 2 0 * 65536 + bs.getD 3 0 * 16777216

/-- C1: encoding a message yields exactly 6 bytes laid out as
[size = 0x06, command tag (1 byte), arg1 (4 bytes little-endian)] with no
padding, for every 32-bit argument; in particular `encode(SetEffect, 3)`
is `[0x06, 0x03, 0x03, 0x00, 0x00, 0x00]`. -/
theorem message_encode_layout :
    (∀ (cmd : ESPNowCommand) (arg : Nat),
      (Message.make cmd arg).data.length = 6 ∧
      (Message.make cmd arg).data.getD 0 0 = 6 ∧
      (Message.make cmd arg).data.getD 1 0 = cmd.toWire ∧
      decodeLE4 ((Message.make cmd arg).data.drop 2) = arg % 4294967296) ∧
    (Message.make ESPNowCommand.SetEffect 3).data = [0x06, 0x03, 0x03, 0x00, 0x00, 0x00] := by
  refine ⟨?_, by decide⟩
  intro cmd arg
  refine ⟨rfl, rfl, ?_, ?_⟩
  · cases cmd <;> rfl
  · show arg % 4294967296 % 256 + arg % 4294967296 / 256 % 256 * 256 +
        arg % 4294967296 / 65536 % 256 * 65536 +
        arg % 4294967296 / 16777216 % 256 * 16777216 = arg % 4294967296
    omega

/-- C2: the command enumeration assigns wire values NextEffect = 1,
PrevEffect = 2, SetEffect = 3, SetBrightness = 4, INVALID = 255, and
INVALID is distinct from every valid code and from zero (every non-INVALID
code is neither 255 nor 0). -/
theorem command_wire_values :
    ESPNowCommand.toWire .NextEffect = 1 ∧
    ESPNowCommand.toWire .PrevEffect = 2 ∧
    ESPNowCommand.toWire .SetEffect = 3 ∧
    ESPNowCommand.toWire .SetBrightness = 4 ∧
    ESPNowCommand.toWire .INVALID = 255 ∧
    (∀ c : ESPNowCommand,
      c = ESPNowCommand.INVALID ∨
      (ESPNowCommand.toWire c ≠ 255 ∧ ESPNowCommand.toWire c ≠ 0)) := by
  refine ⟨rfl, rfl, rfl, rfl, rfl, ?_⟩
  intro c
  cases c
  case INVALID => exact Or.inl rfl
  all_goals exact Or.inr (by decide)

/-- The observable state of the `NightDriverRemote` controller: the single
mutable field `currentEffect` from main.cpp, plus an instrumentation trace of
the byte sequences handed to `esp_now_send` (always addressed to
`RECEIVER_MAC`) and a count of `updateDisplay()` invocations. -/
structure RemoteState where
  currentEffect : Nat
  sent : List (List Nat)
  displayUpdates : Nat
deriving DecidableEq, Repr

/-- The controller state at construction: `currentEffect = 0`, nothing sent,
no display update yet. -/
def initialState : RemoteState :=
  { currentEffect := 0, sent := [], displayUpdates := 0 }

/-- Models `NightDriverRemote::setEffect` from main.cpp: rejects an index that is
`>= EFFECT_NAMES.size()` before building any message; otherwise constructs
`Message(SetEffect, effect)`, hands its bytes to `esp_now_send`, and returns
whether the link layer answered `ESP_OK` (the parameter `sendOk` stands for
that answer). -/
def setEffect (sendOk : Bool) (s : RemoteState) (effect : Nat) : Bool × RemoteState :=
  if effect ≥ EFFECT_NAMES.length then
    (false, s)
  else
    (sendOk, { s with sent := s.sent ++ [(Message.make ESPNowCommand.SetEffect effect).data] })

/-- Models `NightDriverRemote::setBrightness` from main.cpp: constructs
`Message(SetBrightness, brightness)` (the parameter is a `uint8_t`, modelled
by reducing modulo 256), hands its bytes to `esp_now_send`, and returns
whether the link layer answered `ESP_OK`. -/
def setBrightness (sendOk : Bool) (s : RemoteState) (brightness : Nat) : Bool × RemoteState :=
  (sendOk, { s with sent := s.sent ++ [(Message.make ESPNowCommand.SetBrightness (brightness % 256)).data] })

/-- Models `NightDriverRemote::updateDisplay` from main.cpp, reduced to its effect on
the modelled state: one more display refresh.  Its pure progress-bar
arithmetic is modelled separately by `progressWidth` and `progressBarPercent`. -/
def updateDisplay (s : RemoteState) : RemoteState :=
  { s with displayUpdates := s.displayUpdates + 1 }

/-- The first division in `updateDisplay`:
`int progressWidth = (currentEffect * 128) / (EFFECT_NAMES.size() - 1)`. -/
def progressWidth (currentEffect : Nat) : Nat :=
  currentEffect * 128 / (EFFECT_NAMES.length - 1)

/-- The second division in `updateDisplay`: the percentage argument
`(progressWidth * 100) / 128` passed to `drawProgressBar`. -/
def progressBarPercent (currentEffect : Nat) : Nat :=
  progressWidth currentEffect * 100 / 128

/-- The same progress-bar division generalised over the catalog length, to
state what would happen to the divisor for other catalog sizes. -/
def progressWidthFor (catalogLen currentEffect : Nat) : Nat :=
  currentEffect * 128 / (catalogLen - 1)

/-- Models `NightDriverRemote::update` from main.cpp: polls the button (`pressed` is
the debounced edge for this tick); on a press it advances
`currentEffect = (currentEffect + 1) % EFFECT_NAMES.size()` in `uint32_t`
arithmetic, calls `setEffect` with the new index (its Boolean result is
discarded), and then unconditionally calls `updateDisplay`. -/
def update (pressed sendOk : Bool) (s : RemoteState) : RemoteState :=
  if pressed then
    updateDisplay (setEffect sendOk
      { s with currentEffect := (s.currentEffect + 1) % 4294967296 % EFFECT_NAMES.length }
      ((s.currentEffect + 1) % 4294967296 % EFFECT_NAMES.length)).2
  else
    s

/-- N consecutive button-press edges starting from the freshly constructed
controller (each press's send accepted by the link layer; the index
evolution does not depend on that answer). -/
def pressN : Nat → RemoteState
  | 0 => initialState
  | n + 1 => update true true (pressN n)

/-- On a press, `update` leaves `currentEffect` exactly at the advanced index
regardless of the link layer's answer. -/
theorem update_pressed_currentEffect (sendOk : Bool) (s : RemoteState) :
    (update true sendOk s).currentEffect
      = (s.currentEffect + 1) % 4294967296 % EFFECT_NAMES.length := by
  unfold update updateDisplay setEffect
  simp only [if_true]
  split <;> rfl

/-- C3: starting from `currentEffectIndex = 0`, after N consecutive
button-press edges `currentEffectIndex = N mod catalogLength`, where the
catalog length is 7 in this program; in particular after 7 presses the
index is back to 0. -/
theorem press_count_mod_catalog :
    EFFECT_NAMES.length = 7 ∧
    (∀ n : Nat, (pressN n).currentEffect = n % EFFECT_NAMES.length) ∧
    (pressN 7).currentEffect = 0 := by
  refine ⟨rfl, ?_, by decide⟩
  intro n
  induction n with
  | zero => rfl
  | succ n ih =>
      have h := update_pressed_currentEffect true (pressN n)
      show (update true true (pressN n)).currentEffect = (n + 1) % EFFECT_NAMES.length
      rw [h, ih]
      show (n % 7 + 1) % 4294967296 % 7 = (n + 1) % 7
      omega

/-- C4: `setEffect` with an index at or beyond the catalog length returns
failure and performs no transmission: the state (including the trace of
byte sequences handed to the link layer) is unchanged. -/
theorem setEffect_out_of_range_rejected (sendOk : Bool) (s : RemoteState) (effect : Nat)
    (h : EFFECT_NAMES.length ≤ effect) :
    (setEffect sendOk s effect).1 = false ∧ (setEffect sendOk s effect).2 = s := by
  unfold setEffect
  rw [if_pos h]
  exact ⟨rfl, rfl⟩

/-- Witness for C4 at the concrete out-of-range index 7 (catalog length 7). -/
theorem setEffect_out_of_range_rejected_witness :
    (setEffect true initialState 7).1 = false ∧ (setEffect true initialState 7).2 = initialState :=
  setEffect_out_of_range_rejected true initialState 7 (by decide)

/-- C10: the progress-bar computation in `updateDisplay` divides by
`EFFECT_NAMES.size() - 1` and then by 128; the catalog has exactly 7
entries, so the first divisor is the constant 6 and both divisors are
nonzero for every value of `currentEffect`; for a catalog of length 1 the
same computation's divisor would be 0. -/
theorem progress_bar_divisors :
    EFFECT_NAMES.length = 7 ∧
    EFFECT_NAMES.length - 1 = 6 ∧
    EFFECT_NAMES.length - 1 ≠ 0 ∧
    (128 : Nat) ≠ 0 ∧
    (∀ idx : Nat, progressWidth idx = idx * 128 / 6 ∧
      progressBarPercent idx = idx * 128 / 6 * 100 / 128 ∧
      progressWidthFor EFFECT_NAMES.length idx = progressWidth idx) ∧
    (∀ idx : Nat, (1 : Nat) - 1 = 0 ∧ progressWidthFor 1 idx = idx * 128 / 0) := by
  refine ⟨rfl, rfl, by decide, by decide, ?_, ?_⟩
  · intro idx; exact ⟨rfl, rfl, rfl⟩
  · intro idx; exact ⟨rfl, rfl⟩

/-- The environment answers for the two fallible initialization stages:
whether `esp_now_init()` returns `ESP_OK` and whether `esp_now_add_peer`
returns `ESP_OK` (display, button and WiFi setup always succeed in
main.cpp). -/
structure InitEnv where
  espNowInitOk : Bool
  addPeerOk : Bool
deriving DecidableEq, Repr

/-- Instrumentation of the initialization sequence: whether `addPeer` was
ever invoked. -/
structure InitTrace where
  addPeerCalled : Bool
deriving DecidableEq, Repr

/-- Models `NightDriverRemote::initializeDisplay` from main.cpp: always returns true. -/
def initDisplay : Bool := true

/-- Models `NightDriverRemote::initializeButton` from main.cpp: always returns true. -/
def initButton : Bool := true

/-- Models `NightDriverRemote::initializeWiFi` from main.cpp: always returns true. -/
def initWiFi : Bool := true

/-- Models `NightDriverRemote::initializeESPNow` from main.cpp: fails exactly when
`esp_now_init()` does not return `ESP_OK`; otherwise registers the send
callback and succeeds. -/
def initESPNow (env : InitEnv) : Bool := env.espNowInitOk

/-- Models `NightDriverRemote::addPeer` from main.cpp: fails exactly when
`esp_now_add_peer` does not return `ESP_OK`. -/
def addPeer (env : InitEnv) : Bool := env.addPeerOk

/-- Models `NightDriverRemote::initialize` from main.cpp: the short-circuit
conjunction `initializeDisplay() && initializeButton() && initializeWiFi()
&& initializeESPNow() && addPeer()`, with the trace recording whether the
`addPeer` stage was reached. -/
def initRemote (env : InitEnv) : Bool × InitTrace :=
  if initDisplay then
    if initButton then
      if initWiFi then
        if initESPNow env then
          (addPeer env, { addPeerCalled := true })
        else
          (false, { addPeerCalled := false })
      else (false, { addPeerCalled := false })
    else (false, { addPeerCalled := false })
  else (false, { addPeerCalled := false })

/-- The global `setup()` from main.cpp: runs `remote.initialize()`, logs on
failure, and then calls `remote.setEffect(0)` unconditionally.  Returns the
initialization result together with the controller state after `setup`
finishes. -/
def setup (env : InitEnv) (sendOk : Bool) (s : RemoteState) : Bool × RemoteState :=
  ((initRemote env).1, (setEffect sendOk s 0).2)

/-- Counterexample to C5: with `esp_now_init` failing, `initialize` returns
false, yet `setup` still hands a byte sequence to the link layer — the
startup SetEffect send for index 0 does occur after a failed
initialization, so the system is not inert. -/
theorem setup_sends_after_failed_init :
    (setup ⟨false, true⟩ true initialState).1 = false ∧
    (setup ⟨false, true⟩ true initialState).2.sent ≠ [] := by
  exact ⟨rfl, by decide⟩

/-- C5 (amended): `initialize` short-circuits — its overall result is the
conjunction of the stage results and `addPeer` is reached exactly when the
ESP-NOW stage succeeded — but the system does not remain inert after a
failed initialization: `setup` unconditionally attempts the startup
SetEffect send for index 0, appending its bytes to the transmission trace
whatever the initialization outcome. -/
theorem setup_always_sends_effect_zero :
    ∀ (env : InitEnv) (sendOk : Bool) (s : RemoteState),
      (setup env sendOk s).1 = (env.espNowInitOk && env.addPeerOk) ∧
      (initRemote env).2.addPeerCalled = env.espNowInitOk ∧
      (setup env sendOk s).2.sent
        = s.sent ++ [(Message.make ESPNowCommand.SetEffect 0).data] := by
  intro env sendOk s
  obtain ⟨e, a⟩ := env
  cases e <;> cases a <;> exact ⟨rfl, rfl, rfl⟩

/-- C9: if initialization fails at the radio-link (ESP-NOW) stage, peer
registration is never attempted: `initialize` returns false and the
`addPeer` stage is not invoked. -/
theorem espnow_failure_skips_addPeer (env : InitEnv)
    (h : env.espNowInitOk = false) :
    (initRemote env).1 = false ∧ (initRemote env).2.addPeerCalled = false := by
  unfold initRemote initDisplay initButton initWiFi initESPNow
  rw [h]
  exact ⟨rfl, rfl⟩

/-- Witness for C9 at the concrete environment where `esp_now_init` fails. -/
theorem espnow_failure_skips_addPeer_witness :
    (initRemote ⟨false, true⟩).1 = false ∧ (initRemote ⟨false, true⟩).2.addPeerCalled = false :=
  espnow_failure_skips_addPeer ⟨false, true⟩ rfl

/-- Counterexample to C6: starting from the freshly constructed controller,
a button press whose send the link layer rejects still increments the
display-update counter — the effect-set call inside `update` does return
failure, but `updateDisplay` runs anyway because `update` ignores the
result. -/
theorem display_updated_on_rejected_send :
    (setEffect false { initialState with currentEffect := 1 } 1).1 = false ∧
    (update true false initialState).displayUpdates ≠ initialState.displayUpdates := by
  exact ⟨rfl, by decide⟩

/-- C6 (amended): when the link layer rejects the send during a
button-press-triggered effect change, the controller's effect-set call
returns failure, but the display update still occurs: `update` calls
`updateDisplay` unconditionally after `setEffect` on every press, so the
display-update count rises by exactly one. -/
theorem update_press_rejected_send :
    ∀ (s : RemoteState) (sendOk : Bool),
      (setEffect false { s with currentEffect := (s.currentEffect + 1) % 4294967296 % EFFECT_NAMES.length }
        ((s.currentEffect + 1) % 4294967296 % EFFECT_NAMES.length)).1 = false ∧
      (update true sendOk s).displayUpdates = s.displayUpdates + 1 := by
  intro s sendOk
  constructor
  · unfold setEffect
    split <;> rfl
  · unfold update updateDisplay setEffect
    simp only [if_true]
    split <;> rfl

/-- A byte sequence whose command field (offset 1) is the SetEffect or
SetBrightness wire value and is not the INVALID wire value. -/
def goodWireCommand (m : List Nat) : Bool :=
  (m.getD 1 0 == ESPNowCommand.SetEffect.toWire
    || m.getD 1 0 == ESPNowCommand.SetBrightness.toWire)
  && (m.getD 1 0 != ESPNowCommand.INVALID.toWire)

/-- Every byte sequence in a transmission trace has a good command field. -/
def sentCommandsOK (msgs : List (List Nat)) : Bool :=
  msgs.all goodWireCommand

/-- Appending one good message preserves `sentCommandsOK`. -/
theorem sentCommandsOK_append (msgs : List (List Nat)) (m : List Nat)
    (hs : sentCommandsOK msgs = true) (hm : goodWireCommand m = true) :
    sentCommandsOK (msgs ++ [m]) = true := by
  unfold sentCommandsOK at hs ⊢
  rw [List.all_append, hs, List.all_cons, hm]
  rfl

/-- A SetEffect message has a good command field whatever its argument. -/
theorem goodWireCommand_setEffect (e : Nat) :
    goodWireCommand (Message.make ESPNowCommand.SetEffect e).data = true := rfl

/-- A SetBrightness message has a good command field whatever its argument. -/
theorem goodWireCommand_setBrightness (b : Nat) :
    goodWireCommand (Message.make ESPNowCommand.SetBrightness b).data = true := rfl

/-- Lemma: `setEffect` either leaves the transmission trace unchanged (index out of
range) or appends exactly one SetEffect message. -/
theorem setEffect_sent (sendOk : Bool) (s : RemoteState) (e : Nat) :
    (setEffect sendOk s e).2.sent = s.sent ∨
    (setEffect sendOk s e).2.sent
      = s.sent ++ [(Message.make ESPNowCommand.SetEffect e).data] := by
  unfold setEffect
  split
  · exact Or.inl rfl
  · exact Or.inr rfl

/-- Lemma: `update` either leaves the transmission trace unchanged (no press) or
appends exactly one SetEffect message (a press). -/
theorem update_sent (pressed sendOk : Bool) (s : RemoteState) :
    (update pressed sendOk s).sent = s.sent ∨
    ∃ e, (update pressed sendOk s).sent
      = s.sent ++ [(Message.make ESPNowCommand.SetEffect e).data] := by
  cases pressed
  · exact Or.inl rfl
  · have h := setEffect_sent sendOk
      { s with currentEffect := (s.currentEffect + 1) % 4294967296 % EFFECT_NAMES.length }
      ((s.currentEffect + 1) % 4294967296 % EFFECT_NAMES.length)
    rcases h with h | h
    · exact Or.inl h
    · exact Or.inr ⟨(s.currentEffect + 1) % 4294967296 % EFFECT_NAMES.length, h⟩

/-- The states the program can reach: the state after the global `setup()`
(under any environment answers), closed under loop iterations of `update`
(any button edge, any link-layer answer) and under `setBrightness` requests
from the surrounding application. -/
inductive Reachable : RemoteState → Prop where
  | boot (env : InitEnv) (sendOk : Bool) :
      Reachable (setup env sendOk initialState).2
  | loopStep (s : RemoteState) (pressed sendOk : Bool) :
      Reachable s → Reachable (update pressed sendOk s)
  | brightnessStep (s : RemoteState) (b : Nat) (sendOk : Bool) :
      Reachable s → Reachable (setBrightness sendOk s b).2

/-- C7: in every reachable execution, the INVALID wire value (255) never
appears as the command field of any byte sequence handed to the link-layer
send primitive; every transmitted message carries SetEffect or
SetBrightness. -/
theorem transmitted_commands_valid (s : RemoteState) (h : Reachable s) :
    sentCommandsOK s.sent = true := by
  induction h with
  | boot env sendOk =>
      exact sentCommandsOK_append [] _ rfl (goodWireCommand_setEffect 0)
  | loopStep s pressed sendOk _ ih =>
      rcases update_sent pressed sendOk s with h | ⟨e, h⟩
      · rw [h]; exact ih
      · rw [h]; exact sentCommandsOK_append _ _ ih (goodWireCommand_setEffect e)
  | brightnessStep s b sendOk _ ih =>
      exact sentCommandsOK_append _ _ ih (goodWireCommand_setBrightness (b % 256))

/-- Witness for C7 at a concrete reachable state: boot with everything
succeeding, then one button press. -/
theorem transmitted_commands_valid_witness :
    sentCommandsOK (update true true (setup ⟨true, true⟩ true initialState).2).sent = true :=
  transmitted_commands_valid _
    (Reachable.loopStep _ true true (Reachable.boot ⟨true, true⟩ true))

/-- Spec-side constructor, following the spec's words for comparison with the
source constructor `Message.make`: constructing a Message with the INVALID
sentinel is a programmer error and fails fast instead of encoding. -/
def Message.makeSpec (cmd : ESPNowCommand) (argument : Nat) : Option Message :=
  if cmd = ESPNowCommand.INVALID then none
  else some (Message.make cmd argument)

/-- Counterexample to C8: where the spec-side constructor fails fast on the
INVALID sentinel, the source constructor takes no error branch at all — it
silently encodes INVALID into a well-formed 6-byte message whose command
byte is 255. -/
theorem invalid_command_encodes_silently :
    Message.makeSpec ESPNowCommand.INVALID 0 = none ∧
    (Message.make ESPNowCommand.INVALID 0).data = [6, 255, 0, 0, 0, 0] :=
  ⟨rfl, rfl⟩

/-- C8 (amended): the Message constructor in main.cpp contains no assertion
and no error branch; it is total, and for the INVALID sentinel it silently
produces an encoded 6-byte message whose command byte is 255. -/
theorem message_make_never_fails :
    ∀ (cmd : ESPNowCommand) (arg : Nat),
      (Message.make cmd arg).data.length = 6 ∧
      (Message.make ESPNowCommand.INVALID arg).data.getD 1 0 = 255 := by
  intro cmd arg
  exact ⟨rfl, rfl⟩
